import Mathlib

/-!
Verification of the PID temperature controller firmware
(`src/PID/PID.ino`, `src/PID/control.ino`).

Doubles/floats of the source are embedded as rationals (`ℚ`): every
property checked here is an order/branch property, invariant under the
choice of ordered field.  The machine `int dac_output` is embedded as
`ℤ` (all values written to it, `-4095` and `0`, are representable), and
the `unsigned int period` as `ℕ`.

The shared mutable globals of `PID.ino` form one record `ControlState`;
every C function becomes a Lean function from state (plus the values the
hardware or the serial line supplies) to state.
-/

namespace PID

/-- `enum MODES{OPEN_LOOP,CLOSED_LOOP}` of `PID.ino`. -/
inductive Mode where
  | OPEN_LOOP : Mode
  | CLOSED_LOOP : Mode
deriving DecidableEq, Repr

/-- The mutable globals of `PID.ino` (the Control State of the design). -/
structure ControlState where
  temperature : ℚ
  setpoint : ℚ
  error : ℚ
  band : ℚ
  t_integral : ℚ
  t_derivative : ℚ
  u1 : ℚ
  u2 : ℚ
  u3 : ℚ
  period : ℕ
  dt : ℚ
  time_control : ℚ
  time_recent : ℚ
  control_flag : Bool
  dac_output : ℤ
  mode : Mode
deriving DecidableEq, Repr

/-- The state of the globals at program start: numeric globals zero,
`control_flag = false` (`PID.ino` line 49), `dac_output = 0` (line 53),
`mode = OPEN_LOOP` (line 68). -/
def initialState : ControlState :=
  { temperature := 0, setpoint := 0, error := 0
    band := 0, t_integral := 0, t_derivative := 0
    u1 := 0, u2 := 0, u3 := 0
    period := 0, dt := 0, time_control := 0, time_recent := 0
    control_flag := false, dac_output := 0, mode := Mode.OPEN_LOOP }

/-- Modelled from the spec: `set_dac` lives in `get_and_set.ino`, which is
absent from `src/`.  Per the spec's Actuator Adapter interface
(`setOutput(code)`, fire-and-forget) and the declaration comment of
`dac_output` in `PID.ino`, it records the commanded code. -/
def set_dac (v : ℤ) (s : ControlState) : ControlState :=
  { s with dac_output := v }

/-- Modelled from the spec: `set_setpoint` lives in `get_and_set.ino`,
absent from `src/`.  Per the spec's dispatcher contract ("set/get
setpoint (one float argument)") it stores the target temperature. -/
def set_setpoint (v : ℚ) (s : ControlState) : ControlState :=
  { s with setpoint := v }

/-- Modelled from the spec: `set_parameters` lives in `get_and_set.ino`,
absent from `src/`.  Per the spec ("set parameters: band, integral time,
derivative time (three float arguments, atomically applied together)")
it stores the three control parameters. -/
def set_parameters (b ti td : ℚ) (s : ControlState) : ControlState :=
  { s with band := b, t_integral := ti, t_derivative := td }

/-- Modelled from the spec: `set_period` lives in `get_and_set.ino`,
absent from `src/`.  Per the spec ("set/get period (integer argument in
time units; triggers Tick Scheduler rearm)") it stores the control
period; the timer-rearm side effect is hardware and out of scope. -/
def set_period (p : ℕ) (s : ControlState) : ControlState :=
  { s with period := p }

/-- `control()` of `PID.ino` lines 71-86: bang-bang comparator on the
global `error` against `band/2`.  The source reads

  if (error >= band/2)        set_dac(-4095);
  else if (error < -1*band/2) set_dac(0);

and issues no command otherwise. -/
def control (s : ControlState) : ControlState :=
  if s.error ≥ s.band / 2 then set_dac (-4095) s
  else if s.error < -1 * s.band / 2 then set_dac 0 s
  else s

/-- The branch taken by `control()`, as an abstract actuator command. -/
inductive Cmd where
  | full_negative : Cmd
  | zero_off : Cmd
  | no_command : Cmd
deriving DecidableEq, Repr

/-- The decision of `control()` as a function of `error` and `band`
alone (the only inputs the branches of `PID.ino` lines 80-85 read). -/
def controlCmd (error band : ℚ) : Cmd :=
  if error ≥ band / 2 then Cmd.full_negative
  else if error < -1 * band / 2 then Cmd.zero_off
  else Cmd.no_command

/-- `control()` of `control.ino` lines 8-26: same comparator, but on a
local `error = temperature - setpoint` recomputed from the globals
instead of the global `error` field. -/
def control_alt (s : ControlState) : ControlState :=
  let error : ℚ := s.temperature - s.setpoint
  if error ≥ s.band / 2 then set_dac (-4095) s
  else if error < -1 * s.band / 2 then set_dac 0 s
  else s

/-- `read_temperature()` of `PID.ino` lines 141-151: one sensor
measurement `reading` is written to `temperature`, then
`error = temperature - setpoint`, then `time_recent = millis()`
(the current clock value `now`). -/
def read_temperature (reading now : ℚ) (s : ControlState) : ControlState :=
  { s with temperature := reading
           error := reading - s.setpoint
           time_recent := now }

/-- The startup routine of `PID.ino` lines 88-101: the defaults,
followed by a preliminary temperature reading (which writes
`temperature` and the two timestamps but, unlike `read_temperature`,
does not recompute `error`). -/
def startup (reading now1 now2 : ℚ) (s : ControlState) : ControlState :=
  let s1 := set_setpoint (49/2) s            -- set_setpoint(24.50)
  let s2 := set_parameters (24/5) (379/25) (1171/50) s1
                                             -- set_parameters(4.8, 15.16, 23.42)
  let s3 := set_period 350 s2                -- set_period(350)
  let s4 := set_dac 0 s3                     -- set_dac(0)
  { s4 with temperature := reading, time_control := now1, time_recent := now2 }

/-- `ISR(TIMER1_COMPA_vect)` of `PID.ino` lines 153-164: the timer
interrupt body, `control_flag = true;`. -/
def isr (s : ControlState) : ControlState :=
  { s with control_flag := true }

/-- The state `control()` runs on inside the control-service phase:
`read_temperature()` followed by the `dt`/`time_control` update of
`PID.ino` lines 131-132. -/
def timed (reading now : ℚ) (s : ControlState) : ControlState :=
  let s1 := read_temperature reading now s
  { s1 with dt := s1.time_recent - s1.time_control
            time_control := s1.time_recent }

/-- The control-service phase of `loop()` (`PID.ino` lines 128-138):
if `control_flag` is set, measure, update the timing deltas, invoke
`control()` only in `CLOSED_LOOP`, and clear the flag. -/
def controlService (reading now : ℚ) (s : ControlState) : ControlState :=
  if s.control_flag then
    { (if (timed reading now s).mode = Mode.CLOSED_LOOP
       then control (timed reading now s)
       else timed reading now s) with control_flag := false }
  else s

/-- A complete serial command line, as the closed sum the spec's
dispatcher contract enumerates (setters that mutate Control State;
queries mutate nothing and are omitted as state transformers). -/
inductive Command where
  | cmdSetpoint (v : ℚ) : Command
  | cmdParameters (b ti td : ℚ) : Command
  | cmdPeriod (p : ℕ) : Command
  | cmdMode (m : Mode) : Command
  | cmdDac (v : ℤ) : Command
deriving DecidableEq, Repr

/-- Modelled from the spec: `set_mode` lives in `get_and_set.ino`,
absent from `src/`.  Per the spec ("set/get mode...switching to
CLOSED_LOOP should not discard whatever was last commanded to the
actuator") it stores the mode and touches nothing else. -/
def set_mode (m : Mode) (s : ControlState) : ControlState :=
  { s with mode := m }

/-- Modelled from the spec: `parseData()` lives in `get_and_set.ino`,
absent from `src/`.  The dispatcher routes a parsed command line to the
matching setter. -/
def dispatch (c : Command) (s : ControlState) : ControlState :=
  match c with
  | Command.cmdSetpoint v => set_setpoint v s
  | Command.cmdParameters b ti td => set_parameters b ti td s
  | Command.cmdPeriod p => set_period p s
  | Command.cmdMode m => set_mode m s
  | Command.cmdDac v => set_dac v s

/-- The driver state: the Control State plus the serial-intake flags of
`PID.ino` lines 58-64 (`received_data` abstracted to the parsed command
it holds, `newData` as is). -/
structure SysState where
  cs : ControlState
  newData : Bool
  received : Option Command
deriving DecidableEq, Repr

/-- Modelled from the spec: `receive_data()` lives in
`serial_data.ino`, absent from `src/`.  Per the spec's serial-intake
phase it assembles available bytes and, when a complete line has
arrived (`incoming = some c`), stores it and sets `newData`. -/
def receive_data (incoming : Option Command) (s : SysState) : SysState :=
  match incoming with
  | some c => { s with received := some c, newData := true }
  | none => s

/-- The command-dispatch phase of `loop()` (`PID.ino` lines 121-126):
if a complete line is ready (`newData`), dispatch it and clear the
`newData` indicator. -/
def dispatchPhase (s : SysState) : SysState :=
  if s.newData then
    { s with
        cs := (match s.received with
               | some c => dispatch c s.cs
               | none => s.cs)
        newData := false }
  else s

/-- One iteration of `loop()` (`PID.ino` lines 118-139): serial intake,
then command dispatch, then the control service, in that fixed order. -/
def loopStep (incoming : Option Command) (reading now : ℚ)
    (s : SysState) : SysState :=
  { dispatchPhase (receive_data incoming s) with
      cs := controlService reading now
              (dispatchPhase (receive_data incoming s)).cs }

/- ------------------------------------------------------------------ -/
/- Helper lemmas                                                      -/
/- ------------------------------------------------------------------ -/

/-- `control()` writes at most `dac_output`; every other field of the
state is preserved by all three branches. -/
theorem control_preserves (s : ControlState) :
    (control s).temperature = s.temperature
      ∧ (control s).setpoint = s.setpoint
      ∧ (control s).error = s.error
      ∧ (control s).band = s.band
      ∧ (control s).dt = s.dt
      ∧ (control s).time_control = s.time_control
      ∧ (control s).time_recent = s.time_recent
      ∧ (control s).control_flag = s.control_flag
      ∧ (control s).mode = s.mode := by
  unfold control set_dac
  split
  · exact ⟨rfl, rfl, rfl, rfl, rfl, rfl, rfl, rfl, rfl⟩
  · split
    · exact ⟨rfl, rfl, rfl, rfl, rfl, rfl, rfl, rfl, rfl⟩
    · exact ⟨rfl, rfl, rfl, rfl, rfl, rfl, rfl, rfl, rfl⟩

/-- The `dac_output` written by `control()` is the command decided by
`controlCmd` on the state's `error` and `band`. -/
theorem control_dac_eq (s : ControlState) :
    (control s).dac_output
      = (match controlCmd s.error s.band with
         | Cmd.full_negative => -4095
         | Cmd.zero_off => 0
         | Cmd.no_command => s.dac_output) := by
  unfold control controlCmd set_dac
  split
  · rfl
  · split <;> rfl

/-- Field-level description of the measured-and-timed state. -/
theorem timed_fields (r n : ℚ) (s : ControlState) :
    (timed r n s).temperature = r
      ∧ (timed r n s).error = r - s.setpoint
      ∧ (timed r n s).setpoint = s.setpoint
      ∧ (timed r n s).band = s.band
      ∧ (timed r n s).dt = n - s.time_control
      ∧ (timed r n s).time_control = n
      ∧ (timed r n s).time_recent = n
      ∧ (timed r n s).control_flag = s.control_flag
      ∧ (timed r n s).dac_output = s.dac_output
      ∧ (timed r n s).mode = s.mode :=
  ⟨rfl, rfl, rfl, rfl, rfl, rfl, rfl, rfl, rfl, rfl⟩

/-- With the tick flag set, the control-service phase is the timed
measurement, the mode-gated control call, and the flag clear. -/
theorem controlService_of_flag (r n : ℚ) (s : ControlState)
    (h : s.control_flag = true) :
    controlService r n s
      = { (if (timed r n s).mode = Mode.CLOSED_LOOP
           then control (timed r n s)
           else timed r n s) with control_flag := false } := by
  unfold controlService
  rw [h]
  rfl

/-- With the tick flag clear, the control-service phase is an identity. -/
theorem controlService_of_no_flag (r n : ℚ) (s : ControlState)
    (h : s.control_flag = false) :
    controlService r n s = s := by
  unfold controlService
  rw [h]
  rfl

/-- The control-service phase always leaves the tick flag clear. -/
theorem controlService_flag (r n : ℚ) (s : ControlState) :
    (controlService r n s).control_flag = false := by
  by_cases h : s.control_flag = true
  · rw [controlService_of_flag r n s h]
  · rw [controlService_of_no_flag r n s (by simpa using h)]
    simpa using h

/- ------------------------------------------------------------------ -/
/- Claims                                                             -/
/- ------------------------------------------------------------------ -/

/-- C1: for every value of `error` and `band`, if `error ≥ band/2` the
Control Law `control()` commands the actuator to the full-scale
negative code `-4095`. -/
theorem c1_full_negative (s : ControlState)
    (h : s.error ≥ s.band / 2) :
    (control s).dac_output = -4095 := by
  simp [control, set_dac, h]

/-- Witness for C1 at `error = 3`, `band = 4`. -/
theorem c1_full_negative_witness :
    (control { initialState with error := 3, band := 4 }).dac_output
      = -4095 :=
  c1_full_negative { initialState with error := 3, band := 4 } (by norm_num)

/-- C2, counterexample: at `error = 0`, `band = -2` we have
`error < -band/2` (`0 < 1`), yet `control()` commands `-4095`, not `0`:
the first branch `error >= band/2` (`0 ≥ -1`) fires first. -/
theorem c2_counterexample :
    ({ initialState with error := 0, band := -2 } : ControlState).error
        < -1 * ({ initialState with error := 0, band := -2 } :
            ControlState).band / 2
      ∧ (control { initialState with error := 0, band := -2 }).dac_output
          ≠ 0 := by
  constructor
  · norm_num [initialState]
  · norm_num [control, set_dac, initialState]

/-- C2 as amended: if `error < -band/2` and additionally
`error < band/2` (the full-scale-negative branch is not taken — which is
automatic whenever `band ≥ 0`), `control()` commands the zero/off code
`0`. -/
theorem c2_zero_off (s : ControlState)
    (h1 : s.error < -1 * s.band / 2) (h2 : s.error < s.band / 2) :
    (control s).dac_output = 0 := by
  unfold control
  rw [if_neg (not_le.mpr h2), if_pos h1]
  rfl

/-- Witness for the amended C2 at `error = -3`, `band = 4`. -/
theorem c2_zero_off_witness :
    (control { initialState with error := -3, band := 4 }).dac_output
      = 0 :=
  c2_zero_off { initialState with error := -3, band := 4 }
    (by norm_num) (by norm_num)

/-- C3: with `-band/2 ≤ error < band/2`, `control()` issues no actuator
command and leaves the state untouched, and invoking it repeatedly in
this region is a no-op. -/
theorem c3_dead_zone (s : ControlState)
    (h1 : -1 * s.band / 2 ≤ s.error) (h2 : s.error < s.band / 2) :
    control s = s ∧ control (control s) = s := by
  have hc : control s = s := by
    unfold control
    rw [if_neg (not_le.mpr h2), if_neg (not_lt.mpr h1)]
  exact ⟨hc, by rw [hc, hc]⟩

/-- Witness for C3 at `error = 1`, `band = 4`. -/
theorem c3_dead_zone_witness :
    control { initialState with error := 1, band := 4 }
        = { initialState with error := 1, band := 4 }
      ∧ control (control { initialState with error := 1, band := 4 })
          = { initialState with error := 1, band := 4 } :=
  c3_dead_zone { initialState with error := 1, band := 4 }
    (by norm_num) (by norm_num)

/-- C8: `control()` is total and deterministic for every `error` and
`band`: exactly one of the three branches is taken, characterized by
the branch conditions; for `band ≤ 0` the dead zone is empty (the
no-command branch is unreachable); and the state effect of `control()`
is exactly the command that `controlCmd` decides. -/
theorem c8_total_deterministic (e b : ℚ) (s : ControlState) :
    (controlCmd e b = Cmd.full_negative ↔ e ≥ b / 2)
      ∧ (controlCmd e b = Cmd.zero_off ↔ ¬ e ≥ b / 2 ∧ e < -1 * b / 2)
      ∧ (controlCmd e b = Cmd.no_command
          ↔ ¬ e ≥ b / 2 ∧ ¬ e < -1 * b / 2)
      ∧ (b ≤ 0 → controlCmd e b ≠ Cmd.no_command)
      ∧ control s
          = (match controlCmd s.error s.band with
             | Cmd.full_negative => set_dac (-4095) s
             | Cmd.zero_off => set_dac 0 s
             | Cmd.no_command => s) := by
  refine ⟨?_, ?_, ?_, ?_, ?_⟩
  · unfold controlCmd
    split
    · simpa
    · split <;> simp_all
  · unfold controlCmd
    split
    · rename_i h
      simp [h]
    · split <;> simp_all
  · unfold controlCmd
    split
    · rename_i h
      simp [h]
    · split <;> simp_all
  · intro hb hno
    unfold controlCmd at hno
    split at hno
    · exact absurd hno (by simp)
    · split at hno
      · exact absurd hno (by simp)
      · rename_i h1 h2
        rw [not_le] at h1
        rw [not_lt] at h2
        have : -1 * b / 2 < b / 2 := lt_of_le_of_lt h2 h1
        nlinarith
  · unfold control controlCmd
    split
    · rename_i h
      simp [h]
    · rename_i h
      split <;> simp_all

/-- Witness for C8 at `error = 0`, `band = -2` (a collapsed dead zone:
the full-scale branch is taken). -/
theorem c8_total_deterministic_witness :
    controlCmd 0 (-2) = Cmd.full_negative
      ∧ controlCmd 0 (-2) ≠ Cmd.no_command := by
  have h := c8_total_deterministic 0 (-2) initialState
  exact ⟨h.1.mpr (by norm_num), h.2.2.2.1 (by norm_num)⟩

/-- C10: in every state in which the global `error` field equals
`temperature - setpoint`, the `control()` of `PID.ino` (branching on
the global `error`) and the `control()` of `control.ino` (recomputing a
local `error = temperature - setpoint`) produce the same state, hence
issue the same actuator command. -/
theorem c10_refinement (s : ControlState)
    (h : s.error = s.temperature - s.setpoint) :
    control s = control_alt s := by
  unfold control control_alt
  rw [h]

/-- Witness for C10 at `temperature = 30`, `setpoint = 24.5`,
`error = 5.5`, `band = 4`. -/
theorem c10_refinement_witness :
    control { initialState with
                temperature := 30, setpoint := 49/2, error := 11/2,
                band := 4 }
      = control_alt { initialState with
                        temperature := 30, setpoint := 49/2,
                        error := 11/2, band := 4 } :=
  c10_refinement _ (by norm_num)

/-- C4: when `control_flag` is set, one loop pass performs exactly one
measurement-and-decide cycle: one measurement is taken (`temperature`
becomes the reading), `dt` and `time_control` are updated, the Control
Law runs only when `mode = CLOSED_LOOP` (in `OPEN_LOOP` the service is
the measurement and flag clear alone), and the flag is cleared; a
second service attempt after that is a no-op (a set flag never triggers
more than one control computation), a clear flag triggers none, and
ticks arriving before service collapse (`isr` is idempotent: the flag
is a boolean, not a counter). -/
theorem c4_one_cycle_per_tick (r n rr nn : ℚ) (s : ControlState) :
    isr (isr s) = isr s
      ∧ (s.control_flag = false → controlService r n s = s)
      ∧ (s.control_flag = true →
          (controlService r n s).temperature = r
            ∧ (controlService r n s).dt = n - s.time_control
            ∧ (controlService r n s).time_control = n
            ∧ (controlService r n s).control_flag = false
            ∧ (s.mode = Mode.OPEN_LOOP →
                controlService r n s
                  = { timed r n s with control_flag := false })
            ∧ controlService rr nn (controlService r n s)
                = controlService r n s) := by
  refine ⟨rfl, controlService_of_no_flag r n s, ?_⟩
  intro h
  rw [controlService_of_flag r n s h]
  by_cases hm : (timed r n s).mode = Mode.CLOSED_LOOP
  · rw [if_pos hm]
    refine ⟨?_, ?_, ?_, rfl, ?_, ?_⟩
    · show (control (timed r n s)).temperature = r
      rw [(control_preserves (timed r n s)).1]
      rfl
    · show (control (timed r n s)).dt = n - s.time_control
      rw [(control_preserves (timed r n s)).2.2.2.2.1]
      rfl
    · show (control (timed r n s)).time_control = n
      rw [(control_preserves (timed r n s)).2.2.2.2.2.1]
      rfl
    · intro ho
      have : (timed r n s).mode = Mode.OPEN_LOOP := ho
      rw [this] at hm
      exact absurd hm (by simp)
    · exact controlService_of_no_flag rr nn _ rfl
  · rw [if_neg hm]
    exact ⟨rfl, rfl, rfl, rfl, fun _ => rfl,
           controlService_of_no_flag rr nn _ rfl⟩

/-- Witness for C4 with flag set, `OPEN_LOOP` mode,
`reading = 30`, `now = 7`. -/
theorem c4_one_cycle_per_tick_witness :
    (controlService 30 7 { initialState with control_flag := true }).temperature
        = 30
      ∧ (controlService 30 7
          { initialState with control_flag := true }).control_flag = false
      ∧ controlService 30 7
          (controlService 30 7 { initialState with control_flag := true })
        = controlService 30 7 { initialState with control_flag := true } := by
  have h := (c4_one_cycle_per_tick 30 7 30 7
    { initialState with control_flag := true }).2.2 rfl
  exact ⟨h.1, h.2.2.2.1, h.2.2.2.2.2⟩

/-- C5, counterexample: the preliminary measurement inside the startup
routine (`initialize()`, `PID.ino` line 98) writes `temperature`
without recomputing `error`.  With a sensor reading of `30` the state
after startup has `temperature = 30`, `setpoint = 24.5`, but
`error = 0 ≠ 30 - 24.5`: a measurement-write after which `error` is
inconsistent with `temperature - setpoint`. -/
theorem c5_counterexample :
    (startup 30 0 0 initialState).temperature = 30
      ∧ (startup 30 0 0 initialState).setpoint = 49/2
      ∧ (startup 30 0 0 initialState).error
          ≠ (startup 30 0 0 initialState).temperature
              - (startup 30 0 0 initialState).setpoint := by
  refine ⟨rfl, rfl, ?_⟩
  norm_num [startup, set_setpoint, set_parameters, set_period, set_dac,
            initialState]

/-- C5 as amended: every write to `temperature` by `read_temperature()`
is paired in the same step with `error := temperature - setpoint`, so
the measured state (and the measured-and-timed state the Control Law
actually runs on) always satisfies `error = temperature - setpoint`;
when a tick is serviced in `CLOSED_LOOP`, the Control Law is invoked
exactly on that consistent state.  (The startup routine's preliminary
measurement is the one measurement not paired with an `error`
recomputation, but no Control Law invocation can observe it: every
invocation is preceded by `read_temperature()` in the same service.) -/
theorem c5_error_consistency (r n : ℚ) (s : ControlState)
    (hf : s.control_flag = true) (hm : s.mode = Mode.CLOSED_LOOP) :
    (read_temperature r n s).error
        = (read_temperature r n s).temperature
            - (read_temperature r n s).setpoint
      ∧ (timed r n s).error
          = (timed r n s).temperature - (timed r n s).setpoint
      ∧ controlService r n s
          = { control (timed r n s) with control_flag := false } := by
  refine ⟨rfl, rfl, ?_⟩
  rw [controlService_of_flag r n s hf]
  have : (timed r n s).mode = Mode.CLOSED_LOOP := by
    rw [(timed_fields r n s).2.2.2.2.2.2.2.2.2]
    exact hm
  rw [if_pos this]

/-- Witness for C5 (amended) at `reading = 30`, `now = 7`, from a
closed-loop state with the flag set. -/
theorem c5_error_consistency_witness :
    (timed 30 7 { initialState with control_flag := true,
                                    mode := Mode.CLOSED_LOOP }).error
        = (timed 30 7 { initialState with control_flag := true,
                                          mode := Mode.CLOSED_LOOP }).temperature
            - (timed 30 7 { initialState with control_flag := true,
                                              mode := Mode.CLOSED_LOOP }).setpoint
      ∧ controlService 30 7 { initialState with control_flag := true,
                                                mode := Mode.CLOSED_LOOP }
          = { control (timed 30 7 { initialState with
                                      control_flag := true,
                                      mode := Mode.CLOSED_LOOP }) with
                control_flag := false } := by
  have h := c5_error_consistency 30 7
    { initialState with control_flag := true, mode := Mode.CLOSED_LOOP }
    rfl rfl
  exact ⟨h.2.1, h.2.2⟩

/-- C6: the timer interrupt handler's only effect is setting
`control_flag`: the post-state is the pre-state with `control_flag`
set (so every other Control State field, and the actuator command, is
untouched, and no measurement or parsing occurs); and the main loop
never sets the flag — every loop pass ends with `control_flag` clear
(it only clears it, after servicing). -/
theorem c6_isr_frame (s : ControlState) (inc : Option Command)
    (r n : ℚ) (st : SysState) :
    isr s = { s with control_flag := true }
      ∧ (loopStep inc r n st).cs.control_flag = false :=
  ⟨rfl, controlService_flag r n (dispatchPhase (receive_data inc st)).cs⟩

/-- C7: each `loop()` pass is serial intake, then command dispatch,
then control service, in that fixed order (the loop step is literally
the composition); consequently, when a tick is already pending, a
command line dispatched on a pass takes effect at that same pass's
control evaluation: a setpoint command makes the freshly computed
`error` use the new setpoint, a mode command switching to `CLOSED_LOOP`
makes the Control Law run on this very pass, and a parameters command
makes the Control Law branch on the new `band`. -/
theorem c7_phase_order (v b ti td r n : ℚ) (st : SysState) :
    (∀ inc, loopStep inc r n st
        = { dispatchPhase (receive_data inc st) with
              cs := controlService r n
                      (dispatchPhase (receive_data inc st)).cs })
      ∧ (st.cs.control_flag = true →
          (loopStep (some (Command.cmdSetpoint v)) r n st).cs.error
            = r - v)
      ∧ (st.cs.control_flag = true →
          (loopStep (some (Command.cmdMode Mode.CLOSED_LOOP)) r n st).cs.dac_output
            = (match controlCmd (r - st.cs.setpoint) st.cs.band with
               | Cmd.full_negative => -4095
               | Cmd.zero_off => 0
               | Cmd.no_command => st.cs.dac_output))
      ∧ (st.cs.control_flag = true → st.cs.mode = Mode.CLOSED_LOOP →
          (loopStep (some (Command.cmdParameters b ti td)) r n st).cs.dac_output
            = (match controlCmd (r - st.cs.setpoint) b with
               | Cmd.full_negative => -4095
               | Cmd.zero_off => 0
               | Cmd.no_command => st.cs.dac_output)) := by
  refine ⟨fun _ => rfl, ?_, ?_, ?_⟩
  · intro hf
    show (controlService r n
      (dispatchPhase (receive_data (some (Command.cmdSetpoint v)) st)).cs).error
        = r - v
    rw [controlService_of_flag _ _ _ (by simpa [dispatchPhase,
      receive_data, dispatch, set_setpoint] using hf)]
    by_cases hm : (timed r n
        (dispatchPhase (receive_data (some (Command.cmdSetpoint v)) st)).cs).mode
          = Mode.CLOSED_LOOP
    · rw [if_pos hm]
      show (control _).error = r - v
      rw [(control_preserves _).2.2.1]
      simp [timed, read_temperature, dispatchPhase, receive_data,
            dispatch, set_setpoint]
    · rw [if_neg hm]
      show (timed r n _).error = r - v
      simp [timed, read_temperature, dispatchPhase, receive_data,
            dispatch, set_setpoint]
  · intro hf
    show (controlService r n
      (dispatchPhase (receive_data
        (some (Command.cmdMode Mode.CLOSED_LOOP)) st)).cs).dac_output
        = _
    rw [controlService_of_flag _ _ _ (by simpa [dispatchPhase,
      receive_data, dispatch, set_mode] using hf)]
    rw [if_pos (by simp [timed, read_temperature, dispatchPhase,
      receive_data, dispatch, set_mode])]
    show (control _).dac_output = _
    rw [control_dac_eq]
    simp [timed, read_temperature, dispatchPhase, receive_data,
          dispatch, set_mode]
  · intro hf hm
    show (controlService r n
      (dispatchPhase (receive_data
        (some (Command.cmdParameters b ti td)) st)).cs).dac_output
        = _
    rw [controlService_of_flag _ _ _ (by simpa [dispatchPhase,
      receive_data, dispatch, set_parameters] using hf)]
    rw [if_pos (by simp [timed, read_temperature, dispatchPhase,
      receive_data, dispatch, set_parameters, hm])]
    show (control _).dac_output = _
    rw [control_dac_eq]
    simp [timed, read_temperature, dispatchPhase, receive_data,
          dispatch, set_parameters]

/-- Witness for C7: from a closed-loop state with a pending tick, a
setpoint command and a parameters command each take effect at the same
pass's control evaluation (`reading = 30`, `now = 7`). -/
theorem c7_phase_order_witness :
    (loopStep (some (Command.cmdSetpoint 20)) 30 7
        { cs := { initialState with control_flag := true,
                                    mode := Mode.CLOSED_LOOP },
          newData := false, received := none }).cs.error = 10
      ∧ (loopStep (some (Command.cmdParameters 100 0 0)) 30 7
          { cs := { initialState with control_flag := true,
                                      mode := Mode.CLOSED_LOOP },
            newData := false, received := none }).cs.dac_output = 0 := by
  have h := c7_phase_order 20 100 0 0 30 7
    { cs := { initialState with control_flag := true,
                                mode := Mode.CLOSED_LOOP },
      newData := false, received := none }
  constructor
  · have := h.2.1 rfl
    rw [this]
    norm_num
  · have := h.2.2.2 rfl rfl
    rw [this]
    norm_num [controlCmd, initialState]

/-- C9: after the startup routine (`initialize()`) completes from the
power-on state, the Control State holds exactly the documented
defaults: `setpoint = 24.50`, `band = 4.8`, `t_integral = 15.16`,
`t_derivative = 23.42`, `period = 350` ms, the actuator at the zero/off
code, and `mode = OPEN_LOOP`. -/
theorem c9_startup_defaults (r t1 t2 : ℚ) :
    (startup r t1 t2 initialState).setpoint = 49/2
      ∧ (startup r t1 t2 initialState).band = 24/5
      ∧ (startup r t1 t2 initialState).t_integral = 379/25
      ∧ (startup r t1 t2 initialState).t_derivative = 1171/50
      ∧ (startup r t1 t2 initialState).period = 350
      ∧ (startup r t1 t2 initialState).dac_output = 0
      ∧ (startup r t1 t2 initialState).mode = Mode.OPEN_LOOP :=
  ⟨rfl, rfl, rfl, rfl, rfl, rfl, rfl⟩

end PID
